import Mathlib

/-!
Verification development for the Hitron CODA56 Prometheus exporter core
(`main.go`): the fetch → parse → normalize pipeline.

The Go code is shallowly embedded: strings stay `String`, Go's `int64`
values become `Int`, and `float64` values are modelled as exact fractions
(`Frac`, an integer numerator over a positive natural denominator), with
decimal literals parsed exactly.  All values exercised by the concrete
theorems below are exactly representable as IEEE-754 doubles, so the exact
model agrees with the Go runtime on them.  `strconv.ParseInt` and
`strconv.ParseFloat` are modelled on their decimal forms (sign, digits,
optional fraction, optional exponent); hexadecimal floats, `Inf`/`NaN`
tokens and digit-separating underscores are outside the model.
-/

namespace Coda56

/-! ### Exact model of `float64` values -/

/-- Exact fraction standing in for a Go `float64` value.  Every `Frac`
built by the pipeline has a positive denominator (a power of ten, or a
product of such), so comparisons by cross-multiplication agree with the
rational order. -/
structure Frac where
  num : Int
  den : Nat
deriving DecidableEq, Repr

/-- `float64` multiplication, exactly. -/
def Frac.mul (a b : Frac) : Frac :=
  ⟨a.num * b.num, a.den * b.den⟩

/-- `float64` addition, exactly. -/
def Frac.add (a b : Frac) : Frac :=
  ⟨a.num * (b.den : Int) + b.num * (a.den : Int), a.den * b.den⟩

/-- `float64(n)` for an integer `n`. -/
def Frac.ofInt (n : Int) : Frac :=
  ⟨n, 1⟩

instance : LT Frac :=
  ⟨fun a b => a.num * (b.den : Int) < b.num * (a.den : Int)⟩

instance (a b : Frac) : Decidable (a < b) :=
  inferInstanceAs (Decidable (a.num * (b.den : Int) < b.num * (a.den : Int)))

/-- Go's `int64(f)` conversion: truncation toward zero. -/
def Frac.trunc (a : Frac) : Int :=
  a.num.tdiv (a.den : Int)

/-- The rational value of a `Frac`, for specification-level statements. -/
def Frac.val (a : Frac) : ℚ :=
  (a.num : ℚ) / (a.den : ℚ)

/-! ### Models of the Go standard-library string helpers -/

/-- Numeric value of a digit string, most significant first. -/
def digitsToNat (cs : List Char) : Nat :=
  cs.foldl (fun a c => a * 10 + (c.toNat - 48)) 0

/-- All characters are ASCII digits. -/
def isDigits (cs : List Char) : Bool :=
  cs.all (fun c => c.isDigit)

/-- Strip an optional leading sign, returning the sign as `±1`. -/
def splitSign : List Char → Int × List Char
  | '+' :: rest => (1, rest)
  | '-' :: rest => (-1, rest)
  | cs => (1, cs)

/-- Split a character list at the first exponent marker `e`/`E`. -/
def splitMantissaExp : List Char → List Char × Option (List Char)
  | [] => ([], none)
  | c :: rest =>
    if c = 'e' ∨ c = 'E' then ([], some rest)
    else
      let p := splitMantissaExp rest
      (c :: p.1, p.2)

/-- Split a character list at the first decimal point. -/
def splitDot : List Char → List Char × Option (List Char)
  | [] => ([], none)
  | c :: rest =>
    if c = '.' then ([], some rest)
    else
      let p := splitDot rest
      (c :: p.1, p.2)

/-- If `sep` is an initial segment of `cs`, return the rest of `cs`. -/
def stripSep : List Char → List Char → Option (List Char)
  | [], rest => some rest
  | _ :: _, [] => none
  | p :: ps, c :: cs => if c = p then stripSep ps cs else none

/-- Worker for `goSplit`; `fuel` bounds the recursion by the input length
(each step consumes at least one character). -/
def goSplitAux (sep : List Char) : Nat → List Char → List Char → List (List Char)
  | _, acc, [] => [acc]
  | 0, acc, cs => [acc ++ cs]
  | fuel + 1, acc, c :: cs =>
    match stripSep sep (c :: cs) with
    | some rest => acc :: goSplitAux sep fuel [] rest
    | none => goSplitAux sep fuel (acc ++ [c]) cs

/-- Model of `strings.Split(s, sep)` for non-empty `sep`: split around every
non-overlapping, leftmost-first occurrence of the separator. -/
def goSplit (s sep : String) : List String :=
  (goSplitAux sep.toList s.toList.length [] s.toList).map String.mk

/-- Drop leading whitespace. -/
def trimLeftCh : List Char → List Char
  | [] => []
  | c :: cs => if c.isWhitespace then trimLeftCh cs else c :: cs

/-- Model of `strings.TrimSpace`: drop leading and trailing whitespace. -/
def goTrimSpace (s : String) : String :=
  String.mk ((trimLeftCh ((trimLeftCh s.toList).reverse)).reverse)

/-- Model of `strings.TrimSuffix`: drop a trailing occurrence of `suf`, if
present. -/
def goTrimSuffix (s suf : String) : String :=
  let sl := s.toList
  let fl := suf.toList
  if fl.length ≤ sl.length ∧ sl.drop (sl.length - fl.length) = fl then
    String.mk (sl.take (sl.length - fl.length))
  else s

/-! ### Models of `strconv` -/

/-- Model of `strconv.ParseInt(s, 10, 64)` before the range check:
optional sign followed by one or more decimal digits. -/
def goParseIntCore (s : String) : Option Int :=
  let p := splitSign s.toList
  if p.2 ≠ [] ∧ isDigits p.2 then some (p.1 * (digitsToNat p.2 : Int)) else none

/-- Model of `strconv.ParseInt(s, 10, 64)` as used where the caller checks
`err == nil`: any syntax or range failure yields `none`. -/
def goParseInt64 (s : String) : Option Int :=
  match goParseIntCore s with
  | none => none
  | some v => if -(2 ^ 63) ≤ v ∧ v ≤ 2 ^ 63 - 1 then some v else none

/-- Model of `v, _ := strconv.ParseInt(s, 10, 64)` (error discarded):
syntax failure yields 0, range failure yields the clamped extreme. -/
def goParseIntLossy (s : String) : Int :=
  match goParseIntCore s with
  | none => 0
  | some v =>
    if v > 2 ^ 63 - 1 then 2 ^ 63 - 1
    else if v < -(2 ^ 63) then -(2 ^ 63)
    else v

/-- `n · 10^k` as a fraction (the denominator stays a power of ten). -/
def scaleFrac (n : Int) (k : Int) : Frac :=
  if 0 ≤ k then ⟨n * (10 : Int) ^ k.toNat, 1⟩ else ⟨n, (10 : Nat) ^ (-k).toNat⟩

/-- Exponent suffix of a float literal: optional sign, one or more digits. -/
def parseExpPart (cs : List Char) : Option Int :=
  let p := splitSign cs
  if p.2 ≠ [] ∧ isDigits p.2 then some (p.1 * (digitsToNat p.2 : Int)) else none

/-- Model of `strconv.ParseFloat(s, 64)` on decimal forms, with exact
fraction arithmetic in place of IEEE-754 rounding. -/
def goParseFloat (s : String) : Option Frac :=
  let p := splitSign s.toList
  let me := splitMantissaExp p.2
  let id := splitDot me.1
  let intPart := id.1
  let fracPart := (id.2).getD []
  if intPart ++ fracPart = [] then none
  else if ¬ isDigits (intPart ++ fracPart) then none
  else
    let mant : Int := p.1 * (digitsToNat (intPart ++ fracPart) : Int)
    match me.2 with
    | none => some (scaleFrac mant (-(fracPart.length : Int)))
    | some e =>
      match parseExpPart e with
      | none => none
      | some ex => some (scaleFrac mant (ex - (fracPart.length : Int)))

/-- Model of `v, _ := strconv.ParseFloat(s, 64)` (error discarded): the Go
call returns 0 together with the error on syntax failure. -/
def goParseFloatLossy (s : String) : Frac :=
  (goParseFloat s).getD (Frac.ofInt 0)

/-! ### The large-counter normalizer (`parseComplexOctets`, main.go 245–284) -/

/-- Exact value of the Go constant literal `9.223372036854775e+18` used as
the overflow threshold in `parseComplexOctets`. -/
def overflowThreshold : Frac :=
  ⟨9223372036854775000, 1⟩

/-- Embedding of `parseComplexOctets` (main.go 245–284): parses the QAM
downstream octet format such as `"53 * 2e32 + 4142950845"`. -/
def parseComplexOctets (octetsStr : String) : Int :=
  match goParseInt64 octetsStr with
  | some simple => simple
  | none =>
    match goSplit octetsStr " + " with
    | [highStr, lowStr] =>
      match goSplit highStr " * " with
      | [multStr, factStr] =>
        match goParseFloat multStr, goParseFloat factStr, goParseFloat lowStr with
        | some multiplier, some factor, some lowPart =>
          let result := (multiplier.mul factor).add lowPart
          if overflowThreshold < result then lowPart.trunc else result.trunc
        | _, _, _ => 0
      | _ => 0
    | _ => 0

/-- Transcription of the spec's step-by-step algorithm for the
large-counter normalizer (spec §4.3, called `parseLargeCounter` in §8),
written from the spec's words for comparison with `parseComplexOctets`. -/
def parseLargeCounterSpec (s : String) : Int :=
  match goParseInt64 s with
  | some n => n
  | none =>
    let parts := goSplit s " + "
    if parts.length = 2 then
      let highParts := goSplit (parts.getD 0 "") " * "
      if highParts.length = 2 then
        match goParseFloat (highParts.getD 0 ""), goParseFloat (highParts.getD 1 ""),
            goParseFloat (parts.getD 1 "") with
        | some multiplier, some factor, some remainder =>
          let sum := (multiplier.mul factor).add remainder
          if overflowThreshold < sum then remainder.trunc else sum.trunc
        | _, _, _ => 0
      else 0
    else 0

/-- The value handed to the final `int64(result)` conversion of
`parseComplexOctets` when (and only when) the non-overflow branch runs. -/
def complexSum (octetsStr : String) : Option Frac :=
  match goParseInt64 octetsStr with
  | some _ => none
  | none =>
    match goSplit octetsStr " + " with
    | [highStr, lowStr] =>
      match goSplit highStr " * " with
      | [multStr, factStr] =>
        match goParseFloat multStr, goParseFloat factStr, goParseFloat lowStr with
        | some multiplier, some factor, some lowPart =>
          let result := (multiplier.mul factor).add lowPart
          if overflowThreshold < result then none else some result
        | _, _, _ => none
      | _ => none
    | _ => none

/-! ### Telemetry record types (main.go 31–99) -/

/-- One QAM downstream channel record (`DownstreamInfo`). -/
structure DownstreamInfo where
  PortID : String
  Frequency : String
  Modulation : String
  SignalStrength : String
  SNR : String
  DSoctets : String
  Correcteds : String
  Uncorrect : String
  ChannelID : String
deriving DecidableEq, Repr

/-- One QAM upstream channel record (`UpstreamInfo`). -/
structure UpstreamInfo where
  PortID : String
  Frequency : String
  Bandwidth : String
  ModType : String
  ScdmaMode : String
  SignalStrength : String
  ChannelID : String
deriving DecidableEq, Repr

/-- The system information record (`SystemInfo`). -/
structure SystemInfo where
  HWVersion : String
  SWVersion : String
  SerialNumber : String
  RFMac : String
  WanIP : String
  SystemUptime : String
  SystemTime : String
  Timezone : String
  WRecPkt : String
  WSendPkt : String
  LanIP : String
  LRecPkt : String
  LSendPkt : String
deriving DecidableEq, Repr

/-- One OFDM downstream channel record (`OFDMDownstreamInfo`). -/
structure OFDMDownstreamInfo where
  Receive : String
  FFTType : String
  Subcarr0freqFreq : String
  PLCLock : String
  NCPLock : String
  MDC1Lock : String
  PLCPower : String
  SNR : String
  DSoctets : String
  Correcteds : String
  Uncorrect : String
deriving DecidableEq, Repr

/-- One OFDM upstream channel record (`OFDMUpstreamInfo`). -/
structure OFDMUpstreamInfo where
  USCHIndex : String
  State : String
  Frequency : String
  DigAtten : String
  DigAttenBo : String
  ChannelBw : String
  RepPower : String
  RepPower1_6 : String
  FFTVal : String
deriving DecidableEq, Repr

/-- The link status record (`LinkStatus`). -/
structure LinkStatus where
  LinkStatus : String
  LinkDuplex : String
  LinkSpeed : String
deriving DecidableEq, Repr

/-! ### Endpoint decoders (main.go 137–243)

`json.Unmarshal` is abstracted by its outcome: `none` stands for a
malformed payload, `some records` for a decoded JSON array.  The emptiness
policies after unmarshalling are embedded faithfully. -/

/-- Outcome of transport plus `json.Unmarshal` for one endpoint:
`.error` is a transport failure, `.ok none` a malformed payload,
`.ok (some records)` a decoded array. -/
abbrev TIn (α : Type) : Type :=
  Except String (Option (List α))

/-- `parseDownstreamInfo` (main.go 137–144). -/
def parseDownstreamInfo : Option (List DownstreamInfo) → Except String (List DownstreamInfo)
  | none => .error "failed to parse downstream info JSON"
  | some channels => .ok channels

/-- `parseUpstreamInfo` (main.go 146–153). -/
def parseUpstreamInfo : Option (List UpstreamInfo) → Except String (List UpstreamInfo)
  | none => .error "failed to parse upstream info JSON"
  | some channels => .ok channels

/-- `parseSystemInfo` (main.go 155–165): a decoded empty array is an
error; otherwise the first element is returned. -/
def parseSystemInfo : Option (List SystemInfo) → Except String SystemInfo
  | none => .error "failed to parse system info JSON"
  | some [] => .error "empty system info response"
  | some (x :: _) => .ok x

/-- `parseOFDMDownstreamInfo` (main.go 191–198). -/
def parseOFDMDownstreamInfo :
    Option (List OFDMDownstreamInfo) → Except String (List OFDMDownstreamInfo)
  | none => .error "failed to parse OFDM downstream info JSON"
  | some channels => .ok channels

/-- `parseOFDMUpstreamInfo` (main.go 200–207). -/
def parseOFDMUpstreamInfo :
    Option (List OFDMUpstreamInfo) → Except String (List OFDMUpstreamInfo)
  | none => .error "failed to parse OFDM upstream info JSON"
  | some channels => .ok channels

/-- `parseLinkStatus` (main.go 209–219): a decoded empty array is an
error; otherwise the first element is returned. -/
def parseLinkStatus : Option (List LinkStatus) → Except String LinkStatus
  | none => .error "failed to parse link status JSON"
  | some [] => .error "empty link status response"
  | some (x :: _) => .ok x

/-- `GetDownstreamInfo` (main.go 167–173): transport failure propagates,
otherwise the decoder runs. -/
def getDownstreamInfo : TIn DownstreamInfo → Except String (List DownstreamInfo)
  | .error e => .error e
  | .ok d => parseDownstreamInfo d

/-- `GetUpstreamInfo` (main.go 175–181). -/
def getUpstreamInfo : TIn UpstreamInfo → Except String (List UpstreamInfo)
  | .error e => .error e
  | .ok d => parseUpstreamInfo d

/-- `GetSystemInfo` (main.go 183–189). -/
def getSystemInfo : TIn SystemInfo → Except String SystemInfo
  | .error e => .error e
  | .ok d => parseSystemInfo d

/-- `GetOFDMDownstreamInfo` (main.go 221–227). -/
def getOFDMDownstreamInfo : TIn OFDMDownstreamInfo → Except String (List OFDMDownstreamInfo)
  | .error e => .error e
  | .ok d => parseOFDMDownstreamInfo d

/-- `GetOFDMUpstreamInfo` (main.go 229–235). -/
def getOFDMUpstreamInfo : TIn OFDMUpstreamInfo → Except String (List OFDMUpstreamInfo)
  | .error e => .error e
  | .ok d => parseOFDMUpstreamInfo d

/-- `GetLinkStatus` (main.go 237–243). -/
def getLinkStatus : TIn LinkStatus → Except String LinkStatus
  | .error e => .error e
  | .ok d => parseLinkStatus d

/-! ### The metric-vector model

A Prometheus `GaugeVec`/`CounterVec` is a map from label-value tuples to a
current value, living in the `MetricsCollector` for the process lifetime.
`Set` overwrites the value at a label tuple, `Add` accumulates into it.
`Collect` walks every child; the snapshot is the label/value set. -/

/-- One metric vector: label tuples paired with their current value. -/
abbrev MetricVec : Type :=
  List (List String × Frac)

/-- `GaugeVec.WithLabelValues(ls...).Set(x)`. -/
def vecSet (v : MetricVec) (ls : List String) (x : Frac) : MetricVec :=
  if v.any (fun p => p.1 = ls) then
    v.map (fun p => if p.1 = ls then (p.1, x) else p)
  else v ++ [(ls, x)]

/-- The child-map update performed by a successful `Counter.Add`:
accumulate into the child at the label tuple, creating it if absent. -/
def vecAccum (v : MetricVec) (ls : List String) (x : Frac) : MetricVec :=
  if v.any (fun p => p.1 = ls) then
    v.map (fun p => if p.1 = ls then (p.1, p.2.add x) else p)
  else v ++ [(ls, x)]

/-- `CounterVec.WithLabelValues(ls...).Add(x)`: a prometheus counter
panics on a negative increment (client_golang `Counter.Add`), modelled as
`none`; on a nonnegative increment the child accumulates. -/
def vecAdd (v : MetricVec) (ls : List String) (x : Frac) : Option MetricVec :=
  if x < Frac.ofInt 0 then none else some (vecAccum v ls x)

/-- One labeled observation of the snapshot: metric name, label values,
value. -/
abbrev Obs : Type :=
  String × List String × Frac

/-- Emit a vector's children under a metric name. -/
def tagVec (name : String) (v : MetricVec) : List Obs :=
  v.map (fun p => (name, p.1, p.2))

/-! ### The `MetricsCollector` state (main.go 286–323) -/

/-- The six QAM downstream vectors. -/
structure DSVecs where
  power : MetricVec
  snr : MetricVec
  freq : MetricVec
  correctables : MetricVec
  uncorrectables : MetricVec
  octets : MetricVec
deriving DecidableEq, Repr

/-- The three QAM upstream vectors. -/
structure USVecs where
  power : MetricVec
  freq : MetricVec
  symbolRate : MetricVec
deriving DecidableEq, Repr

/-- The seven OFDM downstream vectors. -/
structure OfdmDSVecs where
  power : MetricVec
  snr : MetricVec
  freq : MetricVec
  correctables : MetricVec
  uncorrectables : MetricVec
  octets : MetricVec
  locks : MetricVec
deriving DecidableEq, Repr

/-- The four OFDM upstream vectors. -/
structure OfdmUSVecs where
  power : MetricVec
  freq : MetricVec
  bandwidth : MetricVec
  state : MetricVec
deriving DecidableEq, Repr

/-- The two link status vectors. -/
structure LinkVecs where
  status : MetricVec
  speed : MetricVec
deriving DecidableEq, Repr

/-- The system info vector. -/
structure SysVecs where
  info : MetricVec
deriving DecidableEq, Repr

/-- The whole `MetricsCollector` metric state, grouped by endpoint.  Every
vector is owned by exactly one endpoint section of `Collect`. -/
structure Collector where
  ds : DSVecs
  us : USVecs
  ofdmDs : OfdmDSVecs
  ofdmUs : OfdmUSVecs
  link : LinkVecs
  sys : SysVecs
deriving DecidableEq, Repr

/-- The vectors of a freshly constructed collector (`NewMetricsCollector`):
all empty. -/
def collectorInit : Collector :=
  ⟨⟨[], [], [], [], [], []⟩, ⟨[], [], []⟩, ⟨[], [], [], [], [], [], []⟩,
    ⟨[], [], [], []⟩, ⟨[], []⟩, ⟨[]⟩⟩

/-! ### Token normalizers used inside `Collect` -/

/-- The PLC/NCP/MDC1 lock normalizer (main.go 630–641): trim, then exact
comparison against `"YES"`. -/
def yesFlag (s : String) : Frac :=
  if goTrimSpace s = "YES" then Frac.ofInt 1 else Frac.ofInt 0

/-- The OFDM upstream state normalizer (main.go 660–664): trim, then exact
comparison against `"OPERATE"`. -/
def operateFlag (s : String) : Frac :=
  if goTrimSpace s = "OPERATE" then Frac.ofInt 1 else Frac.ofInt 0

/-- The link status normalizer (main.go 687–690): exact comparison against
`"Up"`, without trimming. -/
def upFlag (s : String) : Frac :=
  if s = "Up" then Frac.ofInt 1 else Frac.ofInt 0

/-- Spec §4.3 token-to-boolean normalizer, written from the spec's words:
trim leading/trailing whitespace, then exact case-sensitive comparison
against the designated true token. -/
def boolToken (t s : String) : Frac :=
  if goTrimSpace s = t then Frac.ofInt 1 else Frac.ofInt 0

/-! ### The per-endpoint bodies of `Collect` (main.go 544–737) -/

/-- Loop body for one QAM downstream channel (main.go 550–573), assuming
the two `Counter.Add` calls do not panic (`dsStepRun` below is the faithful
body with the panic path). -/
def dsStep (v : DSVecs) (channel : DownstreamInfo) : DSVecs :=
  let frequency := goParseFloatLossy channel.Frequency
  let powerLevel := goParseFloatLossy channel.SignalStrength
  let snr := goParseFloatLossy channel.SNR
  let corrected := goParseIntLossy channel.Correcteds
  let uncorrect := goParseIntLossy channel.Uncorrect
  let octets := parseComplexOctets channel.DSoctets
  let labels := [channel.ChannelID, channel.Frequency, channel.Modulation]
  { power := vecSet v.power labels powerLevel
    snr := vecSet v.snr labels snr
    freq := vecSet v.freq [channel.ChannelID, channel.Modulation] frequency
    correctables := vecAccum v.correctables labels (Frac.ofInt corrected)
    uncorrectables := vecAccum v.uncorrectables labels (Frac.ofInt uncorrect)
    octets := vecSet v.octets labels (Frac.ofInt octets) }

/-- Loop body for one QAM upstream channel (main.go 581–596). -/
def usStep (v : USVecs) (channel : UpstreamInfo) : USVecs :=
  let frequency := goParseFloatLossy channel.Frequency
  let powerLevel := goParseFloatLossy channel.SignalStrength
  let bandwidth := goParseFloatLossy channel.Bandwidth
  let labels := [channel.ChannelID, channel.Frequency, channel.ModType]
  { power := vecSet v.power labels powerLevel
    freq := vecSet v.freq [channel.ChannelID, channel.ModType] frequency
    symbolRate := vecSet v.symbolRate labels bandwidth }

/-- Loop body for one OFDM downstream channel (main.go 604–646), assuming
the two `Counter.Add` calls do not panic (`ofdmDsStepRun` below is the
faithful body with the panic path). -/
def ofdmDsStep (v : OfdmDSVecs) (channel : OFDMDownstreamInfo) : OfdmDSVecs :=
  let frequency := goParseFloatLossy (goTrimSpace channel.Subcarr0freqFreq)
  let powerLevel := goParseFloatLossy channel.PLCPower
  let snr := goParseFloatLossy channel.SNR
  let corrected := goParseIntLossy channel.Correcteds
  let uncorrect := goParseIntLossy channel.Uncorrect
  let octets := goParseIntLossy channel.DSoctets
  let labels := [channel.Receive, goTrimSpace channel.Subcarr0freqFreq, channel.FFTType]
  let lockLabels := [channel.Receive, goTrimSpace channel.Subcarr0freqFreq]
  { power := vecSet v.power labels powerLevel
    snr := vecSet v.snr labels snr
    freq := vecSet v.freq [channel.Receive, channel.FFTType] frequency
    correctables := vecAccum v.correctables labels (Frac.ofInt corrected)
    uncorrectables := vecAccum v.uncorrectables labels (Frac.ofInt uncorrect)
    octets := vecSet v.octets labels (Frac.ofInt octets)
    locks :=
      vecSet (vecSet (vecSet v.locks (lockLabels ++ ["plc"]) (yesFlag channel.PLCLock))
          (lockLabels ++ ["ncp"]) (yesFlag channel.NCPLock))
        (lockLabels ++ ["mdc1"]) (yesFlag channel.MDC1Lock) }

/-- Loop body for one OFDM upstream channel (main.go 654–678): the
power/frequency/bandwidth group is only emitted for `frequency > 0`, the
state observation always. -/
def ofdmUsStep (v : OfdmUSVecs) (channel : OFDMUpstreamInfo) : OfdmUSVecs :=
  let frequency := goParseFloatLossy channel.Frequency
  let repPower := goParseFloatLossy (goTrimSpace channel.RepPower)
  let bandwidth := goParseFloatLossy (goTrimSpace channel.ChannelBw)
  let state := goTrimSpace channel.State
  let stateValue := operateFlag channel.State
  let labels := [channel.USCHIndex, channel.Frequency, state]
  let v' :=
    if Frac.ofInt 0 < frequency then
      { v with
        power := vecSet v.power labels repPower
        freq := vecSet v.freq [channel.USCHIndex, state] frequency
        bandwidth := vecSet v.bandwidth labels bandwidth }
    else v
  { v' with state := vecSet v'.state [channel.USCHIndex, channel.Frequency] stateValue }

/-- Link status body (main.go 686–698). -/
def linkApply (v : LinkVecs) (linkInfo : LinkStatus) : LinkVecs :=
  let status := upFlag linkInfo.LinkStatus
  let speedStr := goTrimSuffix linkInfo.LinkSpeed "Mbps"
  let speed := goParseFloatLossy speedStr
  let duplex := linkInfo.LinkDuplex
  { status := vecSet v.status [duplex] status
    speed := vecSet v.speed [duplex] speed }

/-- System info body (main.go 706–710). -/
def sysApply (v : SysVecs) (sysInfo : SystemInfo) : SysVecs :=
  { info := vecSet v.info [sysInfo.HWVersion, sysInfo.SWVersion, sysInfo.SerialNumber]
      (Frac.ofInt 1) }

/-- QAM downstream endpoint section of `Collect` (main.go 546–574): on
failure the vectors are left untouched, otherwise the loop runs. -/
def applyDSv (v : DSVecs) : Except String (List DownstreamInfo) → DSVecs
  | .error _ => v
  | .ok channels => channels.foldl dsStep v

/-- QAM upstream endpoint section (main.go 577–597). -/
def applyUSv (v : USVecs) : Except String (List UpstreamInfo) → USVecs
  | .error _ => v
  | .ok channels => channels.foldl usStep v

/-- OFDM downstream endpoint section (main.go 600–647). -/
def applyOfdmDSv (v : OfdmDSVecs) : Except String (List OFDMDownstreamInfo) → OfdmDSVecs
  | .error _ => v
  | .ok channels => channels.foldl ofdmDsStep v

/-- OFDM upstream endpoint section (main.go 650–679). -/
def applyOfdmUSv (v : OfdmUSVecs) : Except String (List OFDMUpstreamInfo) → OfdmUSVecs
  | .error _ => v
  | .ok channels => channels.foldl ofdmUsStep v

/-- Link status endpoint section (main.go 682–699). -/
def applyLinkv (v : LinkVecs) : Except String LinkStatus → LinkVecs
  | .error _ => v
  | .ok linkInfo => linkApply v linkInfo

/-- System info endpoint section (main.go 702–711). -/
def applySysv (v : SysVecs) : Except String SystemInfo → SysVecs
  | .error _ => v
  | .ok sysInfo => sysApply v sysInfo

/-! ### The faithful loop bodies, with the `Counter.Add` panic path

Only the QAM downstream and OFDM downstream loops call `Counter.Add`
(main.go 570–571 and 624–625); `none` models the scrape goroutine
panicking, after which nothing is emitted for the cycle. -/

/-- Faithful loop body for one QAM downstream channel (main.go 550–573):
the two `Counter.Add` calls panic (`none`) on a negative parsed count. -/
def dsStepRun (v : DSVecs) (channel : DownstreamInfo) : Option DSVecs :=
  let frequency := goParseFloatLossy channel.Frequency
  let powerLevel := goParseFloatLossy channel.SignalStrength
  let snr := goParseFloatLossy channel.SNR
  let corrected := goParseIntLossy channel.Correcteds
  let uncorrect := goParseIntLossy channel.Uncorrect
  let octets := parseComplexOctets channel.DSoctets
  let labels := [channel.ChannelID, channel.Frequency, channel.Modulation]
  match vecAdd v.correctables labels (Frac.ofInt corrected) with
  | none => none
  | some corr =>
    match vecAdd v.uncorrectables labels (Frac.ofInt uncorrect) with
    | none => none
    | some uncorr =>
      some { power := vecSet v.power labels powerLevel
             snr := vecSet v.snr labels snr
             freq := vecSet v.freq [channel.ChannelID, channel.Modulation] frequency
             correctables := corr
             uncorrectables := uncorr
             octets := vecSet v.octets labels (Frac.ofInt octets) }

/-- Faithful loop over the decoded QAM downstream channels: a panic aborts
the remaining iterations. -/
def dsFoldRun : DSVecs → List DownstreamInfo → Option DSVecs
  | v, [] => some v
  | v, ch :: rest =>
    match dsStepRun v ch with
    | none => none
    | some v' => dsFoldRun v' rest

/-- Faithful QAM downstream endpoint section: a failed endpoint leaves the
vectors untouched; a decoded one runs the faithful loop. -/
def applyDSvRun (v : DSVecs) : Except String (List DownstreamInfo) → Option DSVecs
  | .error _ => some v
  | .ok channels => dsFoldRun v channels

/-- Faithful loop body for one OFDM downstream channel (main.go 604–646):
the two `Counter.Add` calls panic (`none`) on a negative parsed count. -/
def ofdmDsStepRun (v : OfdmDSVecs) (channel : OFDMDownstreamInfo) : Option OfdmDSVecs :=
  let frequency := goParseFloatLossy (goTrimSpace channel.Subcarr0freqFreq)
  let powerLevel := goParseFloatLossy channel.PLCPower
  let snr := goParseFloatLossy channel.SNR
  let corrected := goParseIntLossy channel.Correcteds
  let uncorrect := goParseIntLossy channel.Uncorrect
  let octets := goParseIntLossy channel.DSoctets
  let labels := [channel.Receive, goTrimSpace channel.Subcarr0freqFreq, channel.FFTType]
  let lockLabels := [channel.Receive, goTrimSpace channel.Subcarr0freqFreq]
  match vecAdd v.correctables labels (Frac.ofInt corrected) with
  | none => none
  | some corr =>
    match vecAdd v.uncorrectables labels (Frac.ofInt uncorrect) with
    | none => none
    | some uncorr =>
      some { power := vecSet v.power labels powerLevel
             snr := vecSet v.snr labels snr
             freq := vecSet v.freq [channel.Receive, channel.FFTType] frequency
             correctables := corr
             uncorrectables := uncorr
             octets := vecSet v.octets labels (Frac.ofInt octets)
             locks :=
               vecSet (vecSet (vecSet v.locks (lockLabels ++ ["plc"])
                     (yesFlag channel.PLCLock))
                   (lockLabels ++ ["ncp"]) (yesFlag channel.NCPLock))
                 (lockLabels ++ ["mdc1"]) (yesFlag channel.MDC1Lock) }

/-- Faithful loop over the decoded OFDM downstream channels. -/
def ofdmDsFoldRun : OfdmDSVecs → List OFDMDownstreamInfo → Option OfdmDSVecs
  | v, [] => some v
  | v, ch :: rest =>
    match ofdmDsStepRun v ch with
    | none => none
    | some v' => ofdmDsFoldRun v' rest

/-- Faithful OFDM downstream endpoint section. -/
def applyOfdmDSvRun (v : OfdmDSVecs) :
    Except String (List OFDMDownstreamInfo) → Option OfdmDSVecs
  | .error _ => some v
  | .ok channels => ofdmDsFoldRun v channels

/-! ### Gathering the snapshot (main.go 714–736) -/

/-- The six QAM downstream vectors, in `Collect` emission order. -/
def gatherDS (v : DSVecs) : List Obs :=
  tagVec "hitron_downstream_power_dbmv" v.power ++
    tagVec "hitron_downstream_snr_db" v.snr ++
    tagVec "hitron_downstream_frequency_hz" v.freq ++
    tagVec "hitron_downstream_correctables_total" v.correctables ++
    tagVec "hitron_downstream_uncorrectables_total" v.uncorrectables ++
    tagVec "hitron_downstream_octets_bytes" v.octets

/-- The three QAM upstream vectors, in emission order. -/
def gatherUS (v : USVecs) : List Obs :=
  tagVec "hitron_upstream_power_dbmv" v.power ++
    tagVec "hitron_upstream_frequency_hz" v.freq ++
    tagVec "hitron_upstream_symbol_rate" v.symbolRate

/-- The seven OFDM downstream vectors, in emission order. -/
def gatherOfdmDS (v : OfdmDSVecs) : List Obs :=
  tagVec "hitron_ofdm_downstream_power_dbmv" v.power ++
    tagVec "hitron_ofdm_downstream_snr_db" v.snr ++
    tagVec "hitron_ofdm_downstream_frequency_hz" v.freq ++
    tagVec "hitron_ofdm_downstream_correctables_total" v.correctables ++
    tagVec "hitron_ofdm_downstream_uncorrectables_total" v.uncorrectables ++
    tagVec "hitron_ofdm_downstream_octets_bytes" v.octets ++
    tagVec "hitron_ofdm_downstream_locks" v.locks

/-- The four OFDM upstream vectors, in emission order. -/
def gatherOfdmUS (v : OfdmUSVecs) : List Obs :=
  tagVec "hitron_ofdm_upstream_power_dbmv" v.power ++
    tagVec "hitron_ofdm_upstream_frequency_hz" v.freq ++
    tagVec "hitron_ofdm_upstream_bandwidth_mhz" v.bandwidth ++
    tagVec "hitron_ofdm_upstream_state" v.state

/-- The two link status vectors, in emission order. -/
def gatherLink (v : LinkVecs) : List Obs :=
  tagVec "hitron_link_status" v.status ++ tagVec "hitron_link_speed_mbps" v.speed

/-- The system info vector. -/
def gatherSys (v : SysVecs) : List Obs :=
  tagVec "hitron_system_info" v.info

/-- The full snapshot emission at the end of `Collect` (main.go 714–736),
vector by vector in source order. -/
def gather (c : Collector) : List Obs :=
  gatherDS c.ds ++ gatherUS c.us ++ gatherOfdmDS c.ofdmDs ++ gatherOfdmUS c.ofdmUs ++
    gatherLink c.link ++ gatherSys c.sys

/-! ### `Collect` itself -/

/-- The per-endpoint outcomes visible to one `Collect` invocation: for each
of the six endpoints, the transport plus `json.Unmarshal` result. -/
structure Inputs where
  ds : TIn DownstreamInfo
  us : TIn UpstreamInfo
  ofdmDs : TIn OFDMDownstreamInfo
  ofdmUs : TIn OFDMUpstreamInfo
  link : TIn LinkStatus
  sys : TIn SystemInfo

/-- Embedding of `MetricsCollector.Collect` (main.go 544–737): the six
endpoint sections run in turn over the collector's vector state (a failed
endpoint is logged and skipped, leaving its vectors untouched), then every
vector is emitted.  Returns the updated collector state and the emitted
snapshot. -/
def collect (c : Collector) (inp : Inputs) : Collector × List Obs :=
  let c1 : Collector := { c with ds := applyDSv c.ds (getDownstreamInfo inp.ds) }
  let c2 : Collector := { c1 with us := applyUSv c1.us (getUpstreamInfo inp.us) }
  let c3 : Collector := { c2 with ofdmDs := applyOfdmDSv c2.ofdmDs (getOFDMDownstreamInfo inp.ofdmDs) }
  let c4 : Collector := { c3 with ofdmUs := applyOfdmUSv c3.ofdmUs (getOFDMUpstreamInfo inp.ofdmUs) }
  let c5 : Collector := { c4 with link := applyLinkv c4.link (getLinkStatus inp.link) }
  let c6 : Collector := { c5 with sys := applySysv c5.sys (getSystemInfo inp.sys) }
  (c6, gather c6)

/-- Faithful embedding of `MetricsCollector.Collect` including the panic
path of the `Counter.Add` calls: `none` models the scrape goroutine
panicking (client_golang installs no recover around `Collect`), in which
case the endpoints after the panic are never visited and no observation at
all is emitted for the cycle. -/
def collectRun (c : Collector) (inp : Inputs) : Option (Collector × List Obs) :=
  match applyDSvRun c.ds (getDownstreamInfo inp.ds) with
  | none => none
  | some dsv =>
    let c1 : Collector := { c with ds := dsv }
    let c2 : Collector := { c1 with us := applyUSv c1.us (getUpstreamInfo inp.us) }
    match applyOfdmDSvRun c2.ofdmDs (getOFDMDownstreamInfo inp.ofdmDs) with
    | none => none
    | some odsv =>
      let c3 : Collector := { c2 with ofdmDs := odsv }
      let c4 : Collector := { c3 with ofdmUs := applyOfdmUSv c3.ofdmUs (getOFDMUpstreamInfo inp.ofdmUs) }
      let c5 : Collector := { c4 with link := applyLinkv c4.link (getLinkStatus inp.link) }
      let c6 : Collector := { c5 with sys := applySysv c5.sys (getSystemInfo inp.sys) }
      some (c6, gather c6)

/-- The decoded channel list of an endpoint outcome (empty on failure). -/
def chlistOf {α : Type} : Except String (List α) → List α
  | .error _ => []
  | .ok l => l

/-- Both parsed error counts of a channel are nonnegative, so its two
`Counter.Add` calls do not panic. -/
abbrev countsOk (c u : String) : Prop :=
  0 ≤ goParseIntLossy c ∧ 0 ≤ goParseIntLossy u

/-- No decoded channel of the cycle carries a negative parsed error count:
the condition under which no `Counter.Add` call of the cycle panics. -/
abbrev countersOk (inp : Inputs) : Prop :=
  (∀ ch ∈ chlistOf (getDownstreamInfo inp.ds), countsOk ch.Correcteds ch.Uncorrect) ∧
    ∀ ch ∈ chlistOf (getOFDMDownstreamInfo inp.ofdmDs), countsOk ch.Correcteds ch.Uncorrect

/-! ### Per-endpoint snapshot sections on a fresh collector -/

/-- The QAM downstream observations a fresh collector emits for a given
endpoint outcome. -/
def dsSection (t : TIn DownstreamInfo) : List Obs :=
  gatherDS (applyDSv ⟨[], [], [], [], [], []⟩ (getDownstreamInfo t))

/-- The QAM upstream observations for a given endpoint outcome. -/
def usSection (t : TIn UpstreamInfo) : List Obs :=
  gatherUS (applyUSv ⟨[], [], []⟩ (getUpstreamInfo t))

/-- The OFDM downstream observations for a given endpoint outcome. -/
def ofdmDsSection (t : TIn OFDMDownstreamInfo) : List Obs :=
  gatherOfdmDS (applyOfdmDSv ⟨[], [], [], [], [], [], []⟩ (getOFDMDownstreamInfo t))

/-- The OFDM upstream observations for a given endpoint outcome. -/
def ofdmUsSection (t : TIn OFDMUpstreamInfo) : List Obs :=
  gatherOfdmUS (applyOfdmUSv ⟨[], [], [], []⟩ (getOFDMUpstreamInfo t))

/-- The link status observations for a given endpoint outcome. -/
def linkSection (t : TIn LinkStatus) : List Obs :=
  gatherLink (applyLinkv ⟨[], []⟩ (getLinkStatus t))

/-- The system info observations for a given endpoint outcome. -/
def sysSection (t : TIn SystemInfo) : List Obs :=
  gatherSys (applySysv ⟨[]⟩ (getSystemInfo t))

/-! ### Concrete fixtures used by the theorems -/

/-- A representative QAM downstream channel record. -/
def dsChannelExample : DownstreamInfo :=
  ⟨"1", "531000000", "QAM256", "3.5", "40.9", "100", "5", "2", "9"⟩

/-- One cycle's endpoint outcomes: the downstream endpoint decodes one
channel, every other endpoint fails in transport. -/
def repeatInputs : Inputs :=
  ⟨.ok (some [dsChannelExample]), .error "transport failure", .error "transport failure",
    .error "transport failure", .error "transport failure", .error "transport failure"⟩

/-- A link status record whose up/down token is padded with spaces. -/
def paddedLink : LinkStatus :=
  ⟨" Up ", "full", "2500Mbps"⟩

/-- Endpoint outcomes where all six endpoints fail in transport. -/
def allFailInputs : Inputs :=
  ⟨.error "t", .error "t", .error "t", .error "t", .error "t", .error "t"⟩

/-- A QAM downstream channel record whose correctables field parses to a
negative count. -/
def negativeCountChannel : DownstreamInfo :=
  ⟨"1", "531000000", "QAM256", "3.5", "40.9", "100", "-5", "2", "9"⟩

/-- One cycle's endpoint outcomes: the downstream endpoint decodes the
negative-count channel, the link endpoint is healthy, the rest fail in
transport. -/
def panicInputs : Inputs :=
  ⟨.ok (some [negativeCountChannel]), .error "transport failure", .error "transport failure",
    .error "transport failure", .ok (some [⟨"Up", "full", "2500Mbps"⟩]),
    .error "transport failure"⟩

/-! ### Supporting lemmas -/

/-- A scaled integer always has a positive (power-of-ten) denominator. -/
theorem scaleFrac_den_pos (n k : Int) : 0 < (scaleFrac n k).den := by
  unfold scaleFrac
  split
  · exact Nat.one_pos
  · exact Nat.pos_pow_of_pos _ (by norm_num)

/-- Every successfully parsed float has a positive denominator. -/
theorem goParseFloat_den_pos (s : String) (f : Frac) (h : goParseFloat s = some f) :
    0 < f.den := by
  simp only [goParseFloat] at h
  split at h
  · exact absurd h (by simp)
  split at h
  · exact absurd h (by simp)
  split at h
  · obtain rfl : scaleFrac _ _ = f := Option.some.inj h
    exact scaleFrac_den_pos _ _
  split at h
  · exact absurd h (by simp)
  · obtain rfl : scaleFrac _ _ = f := Option.some.inj h
    exact scaleFrac_den_pos _ _

/-- When `complexSum` reaches the conversion, the converted value has a
positive denominator and its numerator is bounded by the threshold times
the denominator (the reverse of the taken branch condition). -/
theorem complexSum_shape (s : String) (f : Frac) (h : complexSum s = some f) :
    0 < f.den ∧ f.num ≤ 9223372036854775000 * (f.den : Int) := by
  unfold complexSum at h
  split at h
  · exact absurd h (by simp)
  split at h
  case _ highStr lowStr =>
    split at h
    case _ multStr factStr =>
      split at h
      case _ a b c ha hb hc =>
        simp only [] at h
        split at h
        · exact absurd h (by simp)
        case _ hlt =>
          obtain rfl : (a.mul b).add c = f := Option.some.inj h
          constructor
          · have pa := goParseFloat_den_pos _ _ ha
            have pb := goParseFloat_den_pos _ _ hb
            have pc := goParseFloat_den_pos _ _ hc
            simp only [Frac.mul, Frac.add]
            positivity
          · have hlt' : ¬ ((9223372036854775000 : Int) * (((a.mul b).add c).den : Int) <
                ((a.mul b).add c).num * 1) := hlt
            rw [mul_one] at hlt'
            exact not_lt.mp hlt'
      · exact absurd h (by simp)
    · exact absurd h (by simp)
  · exact absurd h (by simp)

/-- A successful `Counter.Add` performs exactly the accumulate update. -/
theorem vecAdd_some (v : MetricVec) (ls : List String) (x : Frac) (w : MetricVec)
    (h : vecAdd v ls x = some w) : w = vecAccum v ls x := by
  unfold vecAdd at h
  split at h
  · exact absurd h (by simp)
  · exact (Option.some.inj h).symm

/-- A nonnegative integer increment never panics. -/
theorem vecAdd_nonneg (v : MetricVec) (ls : List String) (n : Int) (h : 0 ≤ n) :
    vecAdd v ls (Frac.ofInt n) = some (vecAccum v ls (Frac.ofInt n)) := by
  unfold vecAdd
  rw [if_neg]
  intro hlt
  have hlt' : n * (1 : Int) < 0 * (1 : Int) := hlt
  omega

/-- A non-panicking downstream loop body computes the panic-free body. -/
theorem dsStepRun_some (v : DSVecs) (ch : DownstreamInfo) (v' : DSVecs)
    (h : dsStepRun v ch = some v') : v' = dsStep v ch := by
  simp only [dsStepRun] at h
  split at h
  · exact absurd h (by simp)
  case _ corr hcorr =>
    split at h
    · exact absurd h (by simp)
    case _ uncorr huncorr =>
      obtain rfl := vecAdd_some _ _ _ _ hcorr
      obtain rfl := vecAdd_some _ _ _ _ huncorr
      exact (Option.some.inj h).symm

/-- A channel with nonnegative parsed counts never panics the downstream
loop body. -/
theorem dsStepRun_ok (v : DSVecs) (ch : DownstreamInfo)
    (h : countsOk ch.Correcteds ch.Uncorrect) : dsStepRun v ch = some (dsStep v ch) := by
  obtain ⟨h1, h2⟩ := h
  simp only [dsStepRun]
  rw [vecAdd_nonneg _ _ _ h1]
  dsimp only
  rw [vecAdd_nonneg _ _ _ h2]
  rfl

/-- A non-panicking downstream loop computes the panic-free fold. -/
theorem dsFoldRun_some (l : List DownstreamInfo) : ∀ (v v' : DSVecs),
    dsFoldRun v l = some v' → v' = l.foldl dsStep v := by
  induction l with
  | nil => exact fun v v' h => (Option.some.inj h).symm
  | cons ch rest ih =>
    intro v v' h
    unfold dsFoldRun at h
    split at h
    · exact absurd h (by simp)
    case _ w hw =>
      obtain rfl := dsStepRun_some v ch w hw
      exact ih _ v' h

/-- A downstream list of channels with nonnegative parsed counts never
panics the loop. -/
theorem dsFoldRun_ok (l : List DownstreamInfo) : ∀ v : DSVecs,
    (∀ ch ∈ l, countsOk ch.Correcteds ch.Uncorrect) →
    dsFoldRun v l = some (l.foldl dsStep v) := by
  induction l with
  | nil => exact fun v _ => rfl
  | cons ch rest ih =>
    intro v h
    unfold dsFoldRun
    rw [dsStepRun_ok v ch (h ch (List.mem_cons_self ch rest))]
    exact ih _ fun c hc => h c (List.mem_cons_of_mem ch hc)

/-- A non-panicking downstream section computes the panic-free section. -/
theorem applyDSvRun_some (v : DSVecs) (r : Except String (List DownstreamInfo))
    (v' : DSVecs) (h : applyDSvRun v r = some v') : v' = applyDSv v r := by
  cases r with
  | error e => exact (Option.some.inj h).symm
  | ok l => exact dsFoldRun_some l v v' h

/-- A downstream outcome whose decoded channels all have nonnegative
parsed counts never panics its section. -/
theorem applyDSvRun_ok (v : DSVecs) (r : Except String (List DownstreamInfo))
    (h : ∀ ch ∈ chlistOf r, countsOk ch.Correcteds ch.Uncorrect) :
    applyDSvRun v r = some (applyDSv v r) := by
  cases r with
  | error e => rfl
  | ok l => exact dsFoldRun_ok l v h

/-- A non-panicking OFDM downstream loop body computes the panic-free
body. -/
theorem ofdmDsStepRun_some (v : OfdmDSVecs) (ch : OFDMDownstreamInfo) (v' : OfdmDSVecs)
    (h : ofdmDsStepRun v ch = some v') : v' = ofdmDsStep v ch := by
  simp only [ofdmDsStepRun] at h
  split at h
  · exact absurd h (by simp)
  case _ corr hcorr =>
    split at h
    · exact absurd h (by simp)
    case _ uncorr huncorr =>
      obtain rfl := vecAdd_some _ _ _ _ hcorr
      obtain rfl := vecAdd_some _ _ _ _ huncorr
      exact (Option.some.inj h).symm

/-- A channel with nonnegative parsed counts never panics the OFDM
downstream loop body. -/
theorem ofdmDsStepRun_ok (v : OfdmDSVecs) (ch : OFDMDownstreamInfo)
    (h : countsOk ch.Correcteds ch.Uncorrect) :
    ofdmDsStepRun v ch = some (ofdmDsStep v ch) := by
  obtain ⟨h1, h2⟩ := h
  simp only [ofdmDsStepRun]
  rw [vecAdd_nonneg _ _ _ h1]
  dsimp only
  rw [vecAdd_nonneg _ _ _ h2]
  rfl

/-- A non-panicking OFDM downstream loop computes the panic-free fold. -/
theorem ofdmDsFoldRun_some (l : List OFDMDownstreamInfo) : ∀ (v v' : OfdmDSVecs),
    ofdmDsFoldRun v l = some v' → v' = l.foldl ofdmDsStep v := by
  induction l with
  | nil => exact fun v v' h => (Option.some.inj h).symm
  | cons ch rest ih =>
    intro v v' h
    unfold ofdmDsFoldRun at h
    split at h
    · exact absurd h (by simp)
    case _ w hw =>
      obtain rfl := ofdmDsStepRun_some v ch w hw
      exact ih _ v' h

/-- An OFDM downstream list with nonnegative parsed counts never panics
the loop. -/
theorem ofdmDsFoldRun_ok (l : List OFDMDownstreamInfo) : ∀ v : OfdmDSVecs,
    (∀ ch ∈ l, countsOk ch.Correcteds ch.Uncorrect) →
    ofdmDsFoldRun v l = some (l.foldl ofdmDsStep v) := by
  induction l with
  | nil => exact fun v _ => rfl
  | cons ch rest ih =>
    intro v h
    unfold ofdmDsFoldRun
    rw [ofdmDsStepRun_ok v ch (h ch (List.mem_cons_self ch rest))]
    exact ih _ fun c hc => h c (List.mem_cons_of_mem ch hc)

/-- A non-panicking OFDM downstream section computes the panic-free
section. -/
theorem applyOfdmDSvRun_some (v : OfdmDSVecs) (r : Except String (List OFDMDownstreamInfo))
    (v' : OfdmDSVecs) (h : applyOfdmDSvRun v r = some v') : v' = applyOfdmDSv v r := by
  cases r with
  | error e => exact (Option.some.inj h).symm
  | ok l => exact ofdmDsFoldRun_some l v v' h

/-- An OFDM downstream outcome whose decoded channels all have nonnegative
parsed counts never panics its section. -/
theorem applyOfdmDSvRun_ok (v : OfdmDSVecs) (r : Except String (List OFDMDownstreamInfo))
    (h : ∀ ch ∈ chlistOf r, countsOk ch.Correcteds ch.Uncorrect) :
    applyOfdmDSvRun v r = some (applyOfdmDSv v r) := by
  cases r with
  | error e => rfl
  | ok l => exact ofdmDsFoldRun_ok l v h

/-- Whenever the faithful run returns, it returns exactly what the
panic-free `collect` computes. -/
theorem collectRun_some (c : Collector) (inp : Inputs) (out : Collector × List Obs)
    (h : collectRun c inp = some out) : out = collect c inp := by
  unfold collectRun at h
  split at h
  · exact absurd h (by simp)
  case _ dsv hds =>
    simp only [] at h
    split at h
    · exact absurd h (by simp)
    case _ odsv hods =>
      obtain rfl := applyDSvRun_some _ _ _ hds
      obtain rfl := applyOfdmDSvRun_some _ _ _ hods
      exact (Option.some.inj h).symm

/-- When every decoded channel of the cycle has nonnegative parsed error
counts, the faithful run returns and computes exactly the panic-free
`collect`. -/
theorem collectRun_ok (c : Collector) (inp : Inputs) (h : countersOk inp) :
    collectRun c inp = some (collect c inp) := by
  obtain ⟨h1, h2⟩ := h
  unfold collectRun
  rw [applyDSvRun_ok c.ds _ h1]
  dsimp only
  rw [applyOfdmDSvRun_ok _ _ h2]
  rfl

/-! ### The claims -/

/-- C1: the large-counter normalizer `parseComplexOctets` follows exactly
the spec's algorithm — plain-integer fast path; split on `" + "` into
exactly two parts else 0; split the first on `" * "` into exactly two parts
else 0; parse three floats else 0; compute `multiplier*factor + remainder`;
above the threshold `9.223372036854775e18` return the truncated remainder
alone, otherwise the truncated sum.  In particular
`parseComplexOctets "53 * 2e32 + 4142950845" = 4142950845` and
`parseComplexOctets "not a number" = 0`. -/
theorem parseComplexOctets_follows_spec_algorithm :
    (∀ s : String, parseComplexOctets s = parseLargeCounterSpec s) ∧
      parseComplexOctets "53 * 2e32 + 4142950845" = 4142950845 ∧
      parseComplexOctets "not a number" = 0 := by
  refine ⟨fun s => ?_, by decide, by decide⟩
  unfold parseComplexOctets parseLargeCounterSpec
  cases goParseInt64 s with
  | some v => rfl
  | none =>
    rcases hp : goSplit s " + " with _ | ⟨a, _ | ⟨b, _ | ⟨c, l3⟩⟩⟩
    · rfl
    · rfl
    · show (match goSplit a " * " with
          | [multStr, factStr] =>
            match goParseFloat multStr, goParseFloat factStr, goParseFloat b with
            | some multiplier, some factor, some lowPart =>
              let result := (multiplier.mul factor).add lowPart
              if overflowThreshold < result then lowPart.trunc else result.trunc
            | _, _, _ => (0 : Int)
          | _ => (0 : Int)) =
        (if (goSplit a " * ").length = 2 then
          match goParseFloat ((goSplit a " * ").getD 0 ""),
              goParseFloat ((goSplit a " * ").getD 1 ""), goParseFloat b with
          | some multiplier, some factor, some remainder =>
            let sum := (multiplier.mul factor).add remainder
            if overflowThreshold < sum then remainder.trunc else sum.trunc
          | _, _, _ => (0 : Int)
        else (0 : Int))
      rcases hq : goSplit a " * " with _ | ⟨x, _ | ⟨y, _ | ⟨z, m3⟩⟩⟩
      · rfl
      · rfl
      · cases goParseFloat x <;> cases goParseFloat y <;> cases goParseFloat b <;> rfl
      · have hne : (x :: y :: z :: m3).length ≠ 2 := by
          simp only [List.length_cons]
          omega
        rw [if_neg hne]
    · have hne : (a :: b :: c :: l3).length ≠ 2 := by
        simp only [List.length_cons]
        omega
      dsimp only
      rw [if_neg hne]

/-- C7: on every well-formed plain decimal integer within the 64-bit
signed range, `parseComplexOctets` returns exactly the directly parsed
integer value (the fast path of main.go 248–250). -/
theorem parseComplexOctets_plain_integer (s : String) (v : Int)
    (h : goParseInt64 s = some v) : parseComplexOctets s = v := by
  unfold parseComplexOctets
  rw [h]

/-- Witness for C7 at the spec's own example: `parseComplexOctets "100"`
returns `100`. -/
theorem parseComplexOctets_plain_integer_witness :
    goParseInt64 "100" = some 100 ∧ parseComplexOctets "100" = 100 :=
  ⟨by decide, parseComplexOctets_plain_integer "100" 100 (by decide)⟩

/-- C9 counterexample: on `"-2 * 1e19 + 0"` the non-overflow branch of
`parseComplexOctets` is reached (the single upper-bound threshold check
passes), yet the value handed to the `int64` conversion is `-2·10¹⁹`,
strictly below the minimum of the 64-bit signed range — so the single
upper-bound check does not suffice for inputs with a negative multiplier,
refuting the claim. -/
theorem complexSum_below_int64_min_cex :
    complexSum "-2 * 1e19 + 0" = some ⟨-20000000000000000000, 1⟩ ∧
      Frac.val ⟨-20000000000000000000, 1⟩ < -(2 ^ 63 : ℚ) ∧
      parseComplexOctets "-2 * 1e19 + 0" = -20000000000000000000 :=
  ⟨by decide, by norm_num [Frac.val], by decide⟩

/-- C9 amended: whenever the final `int64` conversion of
`parseComplexOctets` executes, the threshold check does bound the converted
sum above (by `9.223372036854775e18 < 2⁶³`), so it can never exceed the
64-bit signed maximum; but it is not bounded below, and only under the
additional hypothesis that the sum is nonnegative (e.g. all three parsed
components nonnegative) does it lie within the representable range. -/
theorem complexSum_upper_bound_only (s : String) (f : Frac)
    (h : complexSum s = some f) :
    f.val ≤ overflowThreshold.val ∧ overflowThreshold.val < 2 ^ 63 ∧
      (0 ≤ f.val → -(2 ^ 63 : ℚ) ≤ f.val ∧ f.val < 2 ^ 63) := by
  obtain ⟨hd, hb⟩ := complexSum_shape s f h
  have hdq : (0 : ℚ) < (f.den : ℚ) := by exact_mod_cast hd
  have hbq : (f.num : ℚ) ≤ 9223372036854775000 * (f.den : ℚ) := by exact_mod_cast hb
  have hval : f.val ≤ overflowThreshold.val := by
    unfold Frac.val overflowThreshold
    rw [div_le_div_iff₀ hdq (by norm_num)]
    push_cast
    linarith
  have hthr : overflowThreshold.val < 2 ^ 63 := by
    unfold overflowThreshold Frac.val
    norm_num
  exact ⟨hval, hthr, fun h0 => ⟨by linarith, by linarith⟩⟩

/-- Witness for C9 amended, at `"1 * 2 + 3"` where the conversion receives
the value 5. -/
theorem complexSum_upper_bound_only_witness :
    Frac.val ⟨5, 1⟩ ≤ overflowThreshold.val ∧ overflowThreshold.val < 2 ^ 63 ∧
      (0 ≤ Frac.val ⟨5, 1⟩ → -(2 ^ 63 : ℚ) ≤ Frac.val ⟨5, 1⟩ ∧ Frac.val ⟨5, 1⟩ < 2 ^ 63) :=
  complexSum_upper_bound_only "1 * 2 + 3" ⟨5, 1⟩ (by decide)

/-- C2 evidence (code bug): against the fixed fixture `repeatInputs`
(one decoded downstream channel with 5 correctable and 2 uncorrectable
errors, all other endpoints failing), a first `collect` on a fresh
collector records the correctables counter at 5, and a second `collect`
against the byte-identical outcomes records it at 10: the
`CounterVec.Add` calls of main.go 570–571 accumulate per-cycle device
totals in collector state, so two invocations on identical inputs do not
yield identical observation sets. -/
theorem collect_error_counters_accumulate :
    (collect collectorInit repeatInputs).1.ds.correctables =
        [(["9", "531000000", "QAM256"], ⟨5, 1⟩)] ∧
      (collect (collect collectorInit repeatInputs).1 repeatInputs).1.ds.correctables =
        [(["9", "531000000", "QAM256"], ⟨10, 1⟩)] ∧
      (collect (collect collectorInit repeatInputs).1 repeatInputs).2 ≠
        (collect collectorInit repeatInputs).2 := by
  refine ⟨by decide, by decide, by decide⟩

/-- C3 counterexample: the link status comparison (main.go 688) does not
trim the raw token, so the padded true token `" Up "` — which trims to
exactly `"Up"` — yields 0.0 instead of the 1.0 the claim requires. -/
theorem link_status_padding_cex :
    goTrimSpace " Up " = "Up" ∧ upFlag " Up " = Frac.ofInt 0 ∧
      linkSection (.ok (some [paddedLink])) =
        [("hitron_link_status", ["full"], Frac.ofInt 0),
          ("hitron_link_speed_mbps", ["full"], ⟨2500, 1⟩)] := by
  refine ⟨by decide, by decide, by decide⟩

/-- C3 amended: the OFDM downstream lock flags and the OFDM upstream state
are normalized by trim-then-exact-compare (they agree with the spec's
token normalizer `boolToken`, so padded `" YES "`/`" OPERATE "` yield 1.0
and case-mismatched or unknown tokens yield 0.0), but the link up/down
status is compared against `"Up"` without trimming, so a padded `" Up "`
yields 0.0. -/
theorem token_normalizers_trim_except_link (s : String) :
    yesFlag s = boolToken "YES" s ∧ operateFlag s = boolToken "OPERATE" s ∧
      boolToken "YES" " YES " = Frac.ofInt 1 ∧
      boolToken "OPERATE" " OPERATE " = Frac.ofInt 1 ∧
      boolToken "YES" " yes" = Frac.ofInt 0 ∧ boolToken "YES" "no" = Frac.ofInt 0 ∧
      boolToken "YES" "" = Frac.ofInt 0 ∧
      (∀ li : LinkStatus, linkSection (.ok (some [li])) =
        [("hitron_link_status", [li.LinkDuplex], upFlag li.LinkStatus),
          ("hitron_link_speed_mbps", [li.LinkDuplex],
            goParseFloatLossy (goTrimSuffix li.LinkSpeed "Mbps"))]) ∧
      upFlag " Up " = Frac.ofInt 0 := by
  refine ⟨rfl, rfl, by decide, by decide, by decide, by decide, by decide, fun li => rfl,
    by decide⟩

/-- C4: for every OFDM upstream record, the power, frequency and bandwidth
observations are emitted exactly when the parsed frequency is greater
than 0, while the channel-state observation is emitted unconditionally
(main.go 672–677). -/
theorem ofdm_upstream_frequency_gating (ch : OFDMUpstreamInfo) :
    ofdmUsSection (.ok (some [ch])) =
      (if Frac.ofInt 0 < goParseFloatLossy ch.Frequency then
        [("hitron_ofdm_upstream_power_dbmv",
            [ch.USCHIndex, ch.Frequency, goTrimSpace ch.State],
            goParseFloatLossy (goTrimSpace ch.RepPower)),
          ("hitron_ofdm_upstream_frequency_hz", [ch.USCHIndex, goTrimSpace ch.State],
            goParseFloatLossy ch.Frequency),
          ("hitron_ofdm_upstream_bandwidth_mhz",
            [ch.USCHIndex, ch.Frequency, goTrimSpace ch.State],
            goParseFloatLossy (goTrimSpace ch.ChannelBw)),
          ("hitron_ofdm_upstream_state", [ch.USCHIndex, ch.Frequency], operateFlag ch.State)]
      else
        [("hitron_ofdm_upstream_state", [ch.USCHIndex, ch.Frequency],
          operateFlag ch.State)]) := by
  show gatherOfdmUS (ofdmUsStep ⟨[], [], [], []⟩ ch) = _
  unfold ofdmUsStep
  dsimp only
  by_cases h : Frac.ofInt 0 < goParseFloatLossy ch.Frequency
  · rw [if_pos h, if_pos h]
    rfl
  · rw [if_neg h, if_neg h]
    rfl

/-- C5 counterexample: at `panicInputs` the downstream endpoint decodes
successfully to a channel whose correctables field parses to −5, and the
link endpoint is healthy (its section alone would be two observations);
yet the faithful run of `Collect` panics at the `Counter.Add` call
(main.go 570) and produces no observation set at all — `collect()` neither
always returns nor confines the damage to one endpoint, refuting the
claim over every combination of per-endpoint outcomes. -/
theorem collect_panics_on_negative_counter_cex :
    getDownstreamInfo panicInputs.ds = .ok [negativeCountChannel] ∧
      goParseIntLossy negativeCountChannel.Correcteds = -5 ∧
      linkSection panicInputs.link =
        [("hitron_link_status", ["full"], Frac.ofInt 1),
          ("hitron_link_speed_mbps", ["full"], ⟨2500, 1⟩)] ∧
      collectRun collectorInit panicInputs = none := by
  refine ⟨rfl, by decide, by decide, by decide⟩

/-- C5 amended: transport and decode failures are isolated per endpoint —
the panic-free snapshot of a fresh collector factorizes into six sections,
each a function of its own endpoint's outcome alone, and a failed
endpoint's section is empty, so such a failure skips only that endpoint's
observations.  But `collect` does not always return: the faithful run
(`collectRun`) aborts with no observations at all when a successfully
decoded downstream or OFDM-downstream channel carries a negative parsed
error count (prometheus `Counter.Add` panics, main.go 570–571 and
624–625).  Whenever the faithful run does return it returns exactly the
panic-free snapshot, and it is guaranteed to return whenever every decoded
error count of the cycle is nonnegative — in particular for every
combination of transport and decode failures. -/
theorem collect_isolation_amended :
    (∀ inp : Inputs, (collect collectorInit inp).2 =
        dsSection inp.ds ++ usSection inp.us ++ ofdmDsSection inp.ofdmDs ++
          ofdmUsSection inp.ofdmUs ++ linkSection inp.link ++ sysSection inp.sys) ∧
      (∀ e : String,
        dsSection (.error e) = [] ∧ usSection (.error e) = [] ∧
          ofdmDsSection (.error e) = [] ∧ ofdmUsSection (.error e) = [] ∧
          linkSection (.error e) = [] ∧ sysSection (.error e) = []) ∧
      (∀ (c : Collector) (inp : Inputs) (out : Collector × List Obs),
        collectRun c inp = some out → out = collect c inp) ∧
      (∀ (c : Collector) (inp : Inputs), countersOk inp →
        collectRun c inp = some (collect c inp)) :=
  ⟨fun _ => rfl, fun _ => ⟨rfl, rfl, rfl, rfl, rfl, rfl⟩,
    fun c inp out h => collectRun_some c inp out h,
    fun c inp h => collectRun_ok c inp h⟩

/-- Witness for C5 amended: at the fixture `repeatInputs` (nonnegative
decoded counts, five endpoints failing in transport) the faithful run
returns and produces exactly the panic-free snapshot. -/
theorem collect_isolation_amended_witness :
    collectRun collectorInit repeatInputs = some (collect collectorInit repeatInputs) :=
  collect_isolation_amended.2.2.2 collectorInit repeatInputs (by decide)

/-- C6: the system-info and link-status decoders reject a decoded empty
array with an "empty response" error (main.go 160–162, 214–216), and the
corresponding endpoint then contributes no observation for the cycle;
the four array decoders accept an empty array as an empty sequence
(no error), contributing no observations either. -/
theorem empty_payload_policy :
    parseSystemInfo (some []) = .error "empty system info response" ∧
      parseLinkStatus (some []) = .error "empty link status response" ∧
      sysSection (.ok (some [])) = [] ∧ linkSection (.ok (some [])) = [] ∧
      parseDownstreamInfo (some []) = .ok [] ∧ parseUpstreamInfo (some []) = .ok [] ∧
      parseOFDMDownstreamInfo (some []) = .ok [] ∧ parseOFDMUpstreamInfo (some []) = .ok [] ∧
      dsSection (.ok (some [])) = [] ∧ usSection (.ok (some [])) = [] ∧
      ofdmDsSection (.ok (some [])) = [] ∧ ofdmUsSection (.ok (some [])) = [] :=
  ⟨rfl, rfl, rfl, rfl, rfl, rfl, rfl, rfl, rfl, rfl, rfl, rfl⟩

/-- C8 counterexample: for the concrete downstream channel
`dsChannelExample` (channel id "9", frequency "531000000", modulation
"QAM256"), the emitted frequency observation carries only the
(channel id, modulation) labels — its label set does not contain the
channel's frequency — refuting the claim that every observation of the
channel carries all three identity fields. -/
theorem downstream_frequency_label_cex :
    ("hitron_downstream_frequency_hz", ["9", "QAM256"], (⟨531000000, 1⟩ : Frac)) ∈
        dsSection (.ok (some [dsChannelExample])) ∧
      ¬ "531000000" ∈ (["9", "QAM256"] : List String) := by
  refine ⟨by decide, by decide⟩

/-- C8 amended: for every QAM downstream channel record, the power, SNR,
correctables, uncorrectables and octets observations carry the
(channel id, frequency, modulation) label triple, while the frequency
observation carries only (channel id, modulation) — the frequency is that
observation's value rather than one of its labels (main.go 567–572). -/
theorem downstream_observation_labels (ch : DownstreamInfo) :
    dsSection (.ok (some [ch])) =
      [("hitron_downstream_power_dbmv", [ch.ChannelID, ch.Frequency, ch.Modulation],
          goParseFloatLossy ch.SignalStrength),
        ("hitron_downstream_snr_db", [ch.ChannelID, ch.Frequency, ch.Modulation],
          goParseFloatLossy ch.SNR),
        ("hitron_downstream_frequency_hz", [ch.ChannelID, ch.Modulation],
          goParseFloatLossy ch.Frequency),
        ("hitron_downstream_correctables_total", [ch.ChannelID, ch.Frequency, ch.Modulation],
          Frac.ofInt (goParseIntLossy ch.Correcteds)),
        ("hitron_downstream_uncorrectables_total",
          [ch.ChannelID, ch.Frequency, ch.Modulation],
          Frac.ofInt (goParseIntLossy ch.Uncorrect)),
        ("hitron_downstream_octets_bytes", [ch.ChannelID, ch.Frequency, ch.Modulation],
          Frac.ofInt (parseComplexOctets ch.DSoctets))] := rfl

/-- C10: one `collect` invocation on a fresh collector is deterministic in
its inputs — the embedded `Collect` is a pure function of the six
per-endpoint outcomes (payloads or failures), so two runs over equal
outcome vectors emit exactly the same labeled observations. -/
theorem collect_input_deterministic (inp inp' : Inputs) (h : inp = inp') :
    collect collectorInit inp = collect collectorInit inp' := by
  rw [h]

/-- Witness for C10 at a concrete outcome vector. -/
theorem collect_input_deterministic_witness :
    collect collectorInit allFailInputs = collect collectorInit allFailInputs :=
  collect_input_deterministic allFailInputs allFailInputs rfl

end Coda56
